import Mathlib

/-!
Verification development for the tukai typing-practice application.

The Rust sources under verification are shallowly embedded below:
pure structs become Lean structures, `&mut self` methods become functions
from state to state, and the file system is threaded explicitly as a map
from paths to file contents.  `usize` arithmetic is modelled on `Nat`
with an explicit wrap modulo `2 ^ 64` where the source can overflow
(release-build wrapping semantics; debug builds would panic at the same
spot).  Operations whose Rust counterpart can panic (`unwrap`, `expect`)
return `Option`, with `none` standing for the panic.

Components of the repository that are referenced by the embedded files
but whose own sources are not available (the screen implementations, the
`Stat` record, `FileHandler`, and the bincode codec) are modelled from
the specification; each such definition carries a doc comment saying so.
-/

/-- Key codes relevant to the application, a restriction of
crossterm's `KeyCode` enum; `other` stands for every remaining variant,
none of which any embedded match arm distinguishes. -/
inductive KeyCode where
  | char (c : Char)
  | backspace
  | esc
  | left
  | right
  | other
deriving DecidableEq

/-- A crossterm key event, restricted to the data the embedded code
inspects: the key code and whether the CONTROL modifier is held. -/
structure KeyEvent where
  code : KeyCode
  ctrl : Bool
deriving DecidableEq

/-- Per-session statistics of `typing_window.rs` (struct `Stats`):
a single running error counter. -/
structure WindowStats where
  errors_count : Nat
deriving DecidableEq

/-- `TypingWindow` of `src/windows/typing_window.rs`.  Strings are
modelled as lists of characters; the render-only `config` field carries
no data relevant to any embedded operation and is omitted. -/
structure TypingWindow where
  generated_text : List Char
  input : List Char
  stats : WindowStats
  cursor_index : Nat
  previous_index : Nat
deriving DecidableEq

/-- The modulus of `usize` arithmetic. -/
def USIZE : Nat := 2 ^ 64

namespace TypingWindow

/-- `TypingWindow::handle_events`: a character key pushes onto the input
and increments the cursor; Backspace pops the input (a no-op on an empty
string) and decrements the cursor.  The decrement is unconditional in the
source (`self.cursor_index -= 1`), so at cursor 0 the `usize` underflows:
wrapping (release) semantics are modelled by the explicit modulus, and a
debug build panics at this same spot. -/
def handle_events (w : TypingWindow) (key : KeyEvent) : TypingWindow :=
  match key.code with
  | KeyCode.char c =>
      { w with input := w.input ++ [c],
               cursor_index := (w.cursor_index + 1) % USIZE }
  | KeyCode.backspace =>
      { w with input := w.input.dropLast,
               cursor_index := (w.cursor_index + (USIZE - 1)) % USIZE }
  | _ => w

/-- The visual classification a rendered span carries in
`TypingWindow::get_paragraph`: the cursor cell, a matched character, a
mismatched character (red, underlined), or a not-yet-reached character. -/
inductive SpanKind where
  | cursorCell
  | matched
  | mismatched
  | upcoming
deriving DecidableEq

/-- One rendered span: its classification and the character shown. -/
structure Span where
  kind : SpanKind
  ch : Char
deriving DecidableEq

/-- One step of the `enumerate().map(...)` closure of `get_paragraph`,
threading the mutable `stats.errors_count` the closure captures: a
mismatched index strictly before the cursor increments the counter. -/
def paragraphStep (w : TypingWindow) (acc : List Span × Nat)
    (ic : Nat × Char) : List Span × Nat :=
  if ic.1 = w.cursor_index then
    (acc.1 ++ [⟨SpanKind.cursorCell, ic.2⟩], acc.2)
  else if ic.1 < w.cursor_index then
    if w.input[ic.1]? = some ic.2 then
      (acc.1 ++ [⟨SpanKind.matched, ic.2⟩], acc.2)
    else
      (acc.1 ++ [⟨SpanKind.mismatched, ic.2⟩], acc.2 + 1)
  else
    (acc.1 ++ [⟨SpanKind.upcoming, ic.2⟩], acc.2)

/-- `TypingWindow::get_paragraph`: builds the styled line for the
generated text and, as a side effect of the classification closure,
increments `stats.errors_count` once per mismatched index before the
cursor — on every call, with no caching. -/
def get_paragraph (w : TypingWindow) : List Span × TypingWindow :=
  let r := w.generated_text.enum.foldl (paragraphStep w) ([], w.stats.errors_count)
  (r.1, { w with stats := ⟨r.2⟩ })

end TypingWindow

/-- Modelled from the spec: `TypingDuration` (`src/storage/stats.rs` is
not under the available sources) — enumerated selectable target
durations; the tests use the `Minute` variant. -/
inductive TypingDuration where
  | ThirtySec
  | Minute
  | ThreeMinutes
deriving DecidableEq

/-- Modelled from the spec: the `Stat` record (`src/storage/stats.rs` is
not under the available sources) — an immutable finalized session record
holding the duration category, average WPM, error count, elapsed
seconds and accuracy.  Its numeric fields are opaque payload for every
storage operation verified here, so they are modelled as naturals. -/
structure Stat where
  duration : TypingDuration
  average_wpm : Nat
  errors_count : Nat
  elapsed_secs : Nat
  accuracy : Nat
deriving DecidableEq

/-- Modelled from the spec: an activity record
(`src/storage/activities.rs` is not under the available sources) — a
timestamped session marker. -/
structure Activity where
  timestamp : Nat
deriving DecidableEq

/-- Modelled from the spec: `Activities` is a collection of activity
records; `StorageHandler::default` builds it with `Vec::new()`. -/
abbrev Activities : Type := List Activity

/-- The two fixed keys of the storage map
(`storage_handler.rs`, enum `StorageDataType`). -/
inductive StorageDataType where
  | Stats
  | Activities
deriving DecidableEq

/-- The tagged values of the storage map (`storage_handler.rs`, enum
`StorageDataValue`; the source spells the second variant `Activites`). -/
inductive StorageDataValue where
  | Stats (stats : List Stat)
  | Activites (activities : Activities)
deriving DecidableEq

/-- `type StorageData = HashMap<StorageDataType, StorageDataValue>`,
modelled as an association list without duplicate keys (the embedded
operations never create a duplicate). -/
abbrev StorageData : Type := List (StorageDataType × StorageDataValue)

/-- `HashMap::get` on the association-list model. -/
def StorageData.get (d : StorageData) (k : StorageDataType) :
    Option StorageDataValue :=
  (List.find? (fun kv => kv.1 = k) d).map (fun kv => kv.2)

/-- `HashMap::insert` on the association-list model: replace the value
if the key is present, append the pair otherwise. -/
def StorageData.insert (d : StorageData) (k : StorageDataType)
    (v : StorageDataValue) : StorageData :=
  if (StorageData.get d k).isSome then
    List.map (fun kv => if kv.1 = k then (k, v) else kv) d
  else
    d ++ [(k, v)]

/-- Modelled from the spec: the contents of one file on disk.  The store
is a binary blob that either bincode-decodes to a storage map or fails
to decode; `encodes d` stands for the serialization of `d` and `garbage`
for any bytes that fail to decode. -/
inductive FileBytes where
  | encodes (d : StorageData)
  | garbage
deriving DecidableEq

/-- The file system, threaded explicitly: a map from paths to the
contents of the file at that path, `none` when the file is absent. -/
abbrev FS : Type := String → Option FileBytes

/-- Modelled from the spec: `FileHandler::read_bytes_from_file`
(`src/file_handler.rs` is not under the available sources) — reads the
whole file, failing when it is absent. -/
def read_bytes_from_file (fs : FS) (p : String) : Except Unit FileBytes :=
  match fs p with
  | some b => Except.ok b
  | none => Except.error ()

/-- Modelled from the spec: `FileHandler::write_bytes_into_file`
(`src/file_handler.rs` is not under the available sources) — overwrites
the file at the path with the given bytes in one write. -/
def write_bytes_into_file (fs : FS) (p : String) (b : FileBytes) : FS :=
  fun q => if q = p then some b else fs q

/-- Modelled from the spec: `bincode::serialize` — total on the storage
map; its output decodes back to the same map. -/
def bincode_serialize (d : StorageData) : FileBytes :=
  FileBytes.encodes d

/-- Modelled from the spec: `bincode::deserialize` — succeeds exactly on
bytes produced by serialization. -/
def bincode_deserialize (b : FileBytes) : Option StorageData :=
  match b with
  | FileBytes.encodes d => some d
  | FileBytes.garbage => none

/-- `StorageHandler` of `src/storage/storage_handler.rs`: the backing
file path and the in-memory map. -/
structure StorageHandler where
  file_path : String
  data : StorageData
deriving DecidableEq

namespace StorageHandler

/-- `StorageHandler::new`: stores the path, starts from an empty map. -/
def new (p : String) : StorageHandler :=
  { file_path := p, data := [] }

/-- `StorageHandler::default`: builds a fresh map holding empty `Stats`
and empty `Activities` collections, serializes it and writes it to the
backing file — but stores it only in a local, leaving `self.data`
untouched.  The write is modelled as always succeeding, so the
`io::Result` is always `Ok`. -/
def default (sh : StorageHandler) (fs : FS) : StorageHandler × FS :=
  let empty_data : StorageData :=
    StorageData.insert
      (StorageData.insert [] StorageDataType.Stats (StorageDataValue.Stats []))
      StorageDataType.Activities (StorageDataValue.Activites [])
  let data_bytes := bincode_serialize empty_data
  (sh, write_bytes_into_file fs sh.file_path data_bytes)

/-- `StorageHandler::init`: tries to read the backing file; on success
it `unwrap`s the decode (modelled by `none` = panic) and installs the
decoded map; a read failure is silently ignored, leaving `self.data`
unchanged.  Nothing is ever written. -/
def init (sh : StorageHandler) (fs : FS) : Option StorageHandler :=
  match read_bytes_from_file fs sh.file_path with
  | Except.ok data_bytes =>
      match bincode_deserialize data_bytes with
      | some d => some { sh with data := d }
      | none => none
  | Except.error _ => some sh

/-- `StorageHandler::get_data_stats`: the `Stats` entry of the map, when
it is present and carries the `Stats` variant. -/
def get_data_stats (sh : StorageHandler) : Option (List Stat) :=
  match StorageData.get sh.data StorageDataType.Stats with
  | some (StorageDataValue.Stats stats) => some stats
  | _ => none

/-- `StorageHandler::get_data_stats_reversed`: the stored `Stats`
sequence read out most-recent-first (`iter().rev()`, each element
cloned). -/
def get_data_stats_reversed (sh : StorageHandler) : Option (List Stat) :=
  match StorageData.get sh.data StorageDataType.Stats with
  | some (StorageDataValue.Stats stats) => some stats.reverse
  | _ => none

/-- `StorageHandler::load`: re-reads and decodes the backing file at
`self.file_path`, `unwrap`ping both steps (`none` = panic); the
in-memory map is not touched. -/
def load (sh : StorageHandler) (fs : FS) : Option StorageData :=
  match read_bytes_from_file fs sh.file_path with
  | Except.ok data_bytes => bincode_deserialize data_bytes
  | Except.error _ => none

/-- `StorageHandler::flush`: serializes the whole in-memory map and
writes it — to the hardcoded path `"test.tukai"`, not to
`self.file_path`.  Serialization and the write are modelled as always
succeeding, so the result is always `Ok`. -/
def flush (sh : StorageHandler) (fs : FS) : FS × Except Unit Unit :=
  let data_bytes := bincode_serialize sh.data
  (write_bytes_into_file fs "test.tukai" data_bytes, Except.ok ())

/-- `StorageHandler::insert_into_stats`: when the map holds a `Stats`
entry, pushes a clone of the record onto it and flushes, returning
whether the flush succeeded; otherwise returns `false`, touching
neither the map nor the file system. -/
def insert_into_stats (sh : StorageHandler) (fs : FS) (stat : Stat) :
    StorageHandler × FS × Bool :=
  match StorageData.get sh.data StorageDataType.Stats with
  | some (StorageDataValue.Stats stats) =>
      let sh2 : StorageHandler :=
        { sh with data := StorageData.insert sh.data StorageDataType.Stats
                            (StorageDataValue.Stats (stats ++ [stat])) }
      let r := flush sh2 fs
      (sh2, r.1, (r.2).toBool)
  | _ => (sh, fs, false)

end StorageHandler

/-- The two mutually exclusive screens of `src/app.rs`
(enum `ActiveScreenEnum`). -/
inductive ActiveScreenEnum where
  | Typing
  | Stats
deriving DecidableEq

/-- Modelled from the spec: the session state machine of a typing
session — `SessionState: enum {Idle, Running, Completed, TimedOut}`. -/
inductive SessionState where
  | Idle
  | Running
  | Completed
  | TimedOut
deriving DecidableEq

/-- Modelled from the spec: `TypingScreen::is_running`
(`src/screens/typing_screen.rs` is not under the available sources) —
whether the associated typing session reports `Running`. -/
def specIsRunning (s : SessionState) : Bool :=
  match s with
  | SessionState.Running => true
  | _ => false

/-- The operations `app.rs` invokes on its collaborators whose own
sources are not available (the two screens, the shared config, and the
settings accessors of the storage handler).  They are taken as abstract
parameters over the screen-state type `TS`, the stats-screen-state type
`SS`, the config type `C` and the layout type `L`; the two
`handle_events` fields follow the Screen contract of the spec
(`handle_events(key) -> consumed: bool`, possibly mutating the
screen). -/
structure AppOps (TS SS C L : Type) where
  typing_handle_events : KeyEvent → TS → Bool × TS
  stats_handle_events : KeyEvent → SS → Bool × SS
  typing_reset : TS → TS
  typing_hide : TS → TS
  stats_hide : SS → SS
  switch_typing_duration : C → C × TypingDuration
  set_typing_duration : TypingDuration → StorageHandler → StorageHandler
  toggle_transparent_bg : C → C × Bool
  set_transparent_bg : Bool → StorageHandler → StorageHandler
  switch_layout : C → C × L
  set_layout : L → StorageHandler → StorageHandler
  switch_language : C → C × Nat
  set_language_index : Nat → StorageHandler → StorageHandler
  is_running : TS → Bool

/-- The application state of `struct Tukai` in `src/app.rs`, together
with the explicitly threaded file system `fs` that its storage handler
writes through. -/
structure AppState (TS SS C : Type) where
  config : C
  storage_handler : StorageHandler
  fs : FS
  is_exit : Bool
  time_secs : Nat
  active_screen : ActiveScreenEnum
  typing_screen : TS
  stats_screen : SS

/-- The merged inbound event stream of the main loop
(`enum TukaiEvent { Key, Tick }`). -/
inductive TukaiEvent where
  | key (k : KeyEvent)
  | tick

namespace Tukai

variable {TS SS C L : Type}

/-- `Tukai::reset`: zeroes the elapsed-seconds counter and resets the
typing screen. -/
def reset (ops : AppOps TS SS C L) (app : AppState TS SS C) :
    AppState TS SS C :=
  { app with time_secs := 0,
             typing_screen := ops.typing_reset app.typing_screen }

/-- `Tukai::exit`: sets the exit flag and flushes the storage handler
(`expect` would panic on a flush failure; the modelled flush always
succeeds). -/
def exit (app : AppState TS SS C) : AppState TS SS C :=
  let r := app.storage_handler.flush app.fs
  { app with is_exit := true, fs := r.1 }

/-- `Tukai::switch_active_screen`: hides the screen being left, then
records the target as active. -/
def switch_active_screen (ops : AppOps TS SS C L) (app : AppState TS SS C)
    (target : ActiveScreenEnum) : AppState TS SS C :=
  match target with
  | ActiveScreenEnum.Stats =>
      { app with typing_screen := ops.typing_hide app.typing_screen,
                 active_screen := ActiveScreenEnum.Stats }
  | ActiveScreenEnum.Typing =>
      { app with stats_screen := ops.stats_hide app.stats_screen,
                 active_screen := ActiveScreenEnum.Typing }

/-- `Tukai::handle_screen_events`: only the Typing screen is ever
offered a key (`match { Typing => typing_screen.handle_events(key),
_ => false }`); with Stats active the key is reported unconsumed without
invoking any handler. -/
def handle_screen_events (ops : AppOps TS SS C L) (app : AppState TS SS C)
    (key : KeyEvent) : Bool × AppState TS SS C :=
  match app.active_screen with
  | ActiveScreenEnum.Typing =>
      let r := ops.typing_handle_events key app.typing_screen
      (r.1, { app with typing_screen := r.2 })
  | _ => (false, app)

/-- The CONTROL-modified command dispatch of `Tukai::handle_events`
(the `match c` inside the CONTROL branch). -/
def ctrl_command (ops : AppOps TS SS C L) (app : AppState TS SS C)
    (c : Char) : AppState TS SS C :=
  if c = 'r' then reset ops app
        else if c = 'l' then switch_active_screen ops app ActiveScreenEnum.Stats
        else if c = 'h' then switch_active_screen ops app ActiveScreenEnum.Typing
        else if c = 'c' then exit app
        else if c = 'd' then
          let p1 := ops.switch_typing_duration app.config
          let app1 := { app with
            config := p1.1,
            storage_handler := ops.set_typing_duration p1.2 app.storage_handler }
          reset ops app1
        else if c = 't' then
          let p1 := ops.toggle_transparent_bg app.config
          { app with
            config := p1.1,
            storage_handler := ops.set_transparent_bg p1.2 app.storage_handler }
        else if c = 's' then
          let p1 := ops.switch_layout app.config
          { app with
            config := p1.1,
            storage_handler := ops.set_layout p1.2 app.storage_handler }
        else if c = 'p' then
          let p1 := ops.switch_language app.config
          let app1 := { app with
            config := p1.1,
            storage_handler := ops.set_language_index p1.2 app.storage_handler }
          reset ops app1
        else app

/-- The unmodified-key fallback at the end of `Tukai::handle_events`:
Esc exits, Left and Right navigate; anything else is ignored. -/
def unconsumed_fallback (app : AppState TS SS C) (key_event : KeyEvent) :
    AppState TS SS C :=
  if key_event.code = KeyCode.esc then exit app
  else if key_event.code = KeyCode.left then
    { app with active_screen := ActiveScreenEnum.Typing }
  else if key_event.code = KeyCode.right then
    { app with active_screen := ActiveScreenEnum.Stats }
  else app

/-- `Tukai::handle_events`: CONTROL combinations are handled as global
commands and return before any screen is consulted; otherwise the
(Typing) screen is offered the key, and an unconsumed key falls back to
bare Esc/Left/Right handling. -/
def handle_events (ops : AppOps TS SS C L) (app : AppState TS SS C)
    (key_event : KeyEvent) : AppState TS SS C :=
  if key_event.ctrl then
    match key_event.code with
    | KeyCode.char c => ctrl_command ops app c
    | _ => app
  else
    let pr := handle_screen_events ops app key_event
    if pr.1 then pr.2
    else unconsumed_fallback pr.2 key_event

/-- One iteration of the event match inside `Tukai::run`: a key event
goes to `handle_events`; a tick increments `time_secs` exactly when the
typing screen reports running, and is dropped otherwise. -/
def step (ops : AppOps TS SS C L) (app : AppState TS SS C)
    (ev : TukaiEvent) : AppState TS SS C :=
  match ev with
  | TukaiEvent.key k => handle_events ops app k
  | TukaiEvent.tick =>
      if ops.is_running app.typing_screen then
        { app with time_secs := app.time_secs + 1 }
      else
        app

end Tukai

/-- A session state over the one-character text "a" with the single
character mistyped as "x" and the cursor past it. -/
def twWrongOne : TypingWindow :=
  { generated_text := ['a'], input := ['x'], stats := ⟨0⟩,
    cursor_index := 1, previous_index := 0 }

/-- A fresh session state over the one-character text "a": empty input,
cursor 0. -/
def twFresh : TypingWindow :=
  { generated_text := ['a'], input := [], stats := ⟨0⟩,
    cursor_index := 0, previous_index := 0 }

/-- A Backspace key event without modifiers. -/
def backspaceEvent : KeyEvent := ⟨KeyCode.backspace, false⟩

/-- C1: the claim fails on the code.  `get_paragraph` increments
`stats.errors_count` for every mismatched index before the cursor on
every call — there is no classification cache.  Over the text "a" with
input "x", the first render counts the error once, a second render with
no input change in between counts it again (1 to 2), and the counter
then already exceeds the length of the generated text. -/
theorem c1_second_render_recounts_errors :
    ((twWrongOne.get_paragraph).2).stats.errors_count = 1 ∧
    ((((twWrongOne.get_paragraph).2).get_paragraph).2).stats.errors_count = 2 ∧
    twWrongOne.generated_text.length <
      ((((twWrongOne.get_paragraph).2).get_paragraph).2).stats.errors_count := by
  decide

/-- C2: the claim fails on the code.  At cursor 0 a Backspace is not a
no-op: `self.cursor_index -= 1` is unconditional, so the `usize`
underflows — a debug build panics, a release build wraps the cursor to
`2 ^ 64 - 1` — and the state is changed. -/
theorem c2_backspace_at_zero_underflows :
    (twFresh.handle_events backspaceEvent).cursor_index = USIZE - 1 ∧
    twFresh.handle_events backspaceEvent ≠ twFresh := by
  decide

/-- C5: the claim fails on the code.  After typing "a" over the
one-character text "a" the input has reached the generated text's
length (the terminal state of the claim), yet a further character event
is not a no-op: `handle_events` appends unconditionally, driving the
input length past the generated text's length. -/
theorem c5_char_after_completion_still_appends :
    ((twFresh.handle_events ⟨KeyCode.char 'a', false⟩).input.length
        = twFresh.generated_text.length) ∧
    (twFresh.generated_text.length <
      ((twFresh.handle_events ⟨KeyCode.char 'a', false⟩).handle_events
        ⟨KeyCode.char 'x', false⟩).input.length) ∧
    ((twFresh.handle_events ⟨KeyCode.char 'a', false⟩).handle_events
        ⟨KeyCode.char 'x', false⟩)
      ≠ twFresh.handle_events ⟨KeyCode.char 'a', false⟩ := by
  decide

/-- Looking a key up right after inserting it yields the inserted
value, on the association-list model of the storage map. -/
theorem StorageData.get_insert (d : StorageData) (k : StorageDataType)
    (v : StorageDataValue) :
    StorageData.get (StorageData.insert d k v) k = some v := by
  induction d with
  | nil => simp [StorageData.insert, StorageData.get]
  | cons hd tl ih =>
      by_cases hk : hd.1 = k
      · simp [StorageData.insert, StorageData.get, List.find?, hk]
      · simp only [StorageData.insert, StorageData.get] at ih ⊢
        by_cases hs : (List.find? (fun kv => kv.1 = k) tl).isSome
        · simp [List.find?, hk, hs] at ih ⊢
          simpa [hs] using ih
        · simp [List.find?, hk, hs] at ih ⊢
          simpa [hs] using ih

/-- The file system with no files at all. -/
def fsAbsent : FS := fun _ => none

/-- A file system on which every read succeeds but yields bytes that
fail to decode. -/
def fsAllGarbage : FS := fun _ => some FileBytes.garbage

/-- The two-key map `StorageHandler::default` seeds: empty `Stats`,
empty `Activities`. -/
def seededData : StorageData :=
  [(StorageDataType.Stats, StorageDataValue.Stats []),
   (StorageDataType.Activities, StorageDataValue.Activites [])]

/-- The finalized record the storage tests build
(`Stat::new(TypingDuration::Minute, 80, 5, 60)`). -/
def statA : Stat :=
  { duration := TypingDuration.Minute, average_wpm := 80,
    errors_count := 5, elapsed_secs := 60, accuracy := 94 }

/-- A second, distinct finalized record. -/
def statB : Stat :=
  { duration := TypingDuration.ThirtySec, average_wpm := 40,
    errors_count := 2, elapsed_secs := 30, accuracy := 90 }

/-- C3, counterexample: on the file system with no files, `init` on a
fresh handler succeeds but yields a store whose map contains neither the
Stats key nor the Activities key (the read failure is silently ignored
and nothing is written); and on undecodable bytes `init` panics
(`unwrap` on the failed decode, modelled as `none`). -/
theorem c3_cex_init_neither_seeds_nor_survives_garbage :
    StorageHandler.init (StorageHandler.new "storage.tukai") fsAbsent
      = some (StorageHandler.new "storage.tukai") ∧
    StorageData.get (StorageHandler.new "storage.tukai").data
      StorageDataType.Stats = none ∧
    StorageData.get (StorageHandler.new "storage.tukai").data
      StorageDataType.Activities = none ∧
    StorageHandler.init (StorageHandler.new "storage.tukai") fsAllGarbage
      = none := by
  refine ⟨rfl, rfl, rfl, rfl⟩

/-- C3, amended: `init` reads the backing file and installs the decoded
map; a read failure (including an absent file) leaves the in-memory map
unchanged and writes nothing; a decode failure panics.  The seeding of a
map with both keys and the immediate write belong to the separate
`default` method, which writes the seeded two-key map to the backing
file while leaving the handler's in-memory map untouched. -/
theorem c3_init_reads_or_keeps_and_default_seeds_file (fs : FS)
    (sh : StorageHandler) :
    (fs sh.file_path = none → StorageHandler.init sh fs = some sh) ∧
    (fs sh.file_path = some FileBytes.garbage →
      StorageHandler.init sh fs = none) ∧
    (∀ d : StorageData, fs sh.file_path = some (FileBytes.encodes d) →
      StorageHandler.init sh fs = some { sh with data := d }) ∧
    ((StorageHandler.default sh fs).1 = sh ∧
      (StorageHandler.default sh fs).2 sh.file_path
        = some (bincode_serialize seededData) ∧
      StorageData.get seededData StorageDataType.Stats
        = some (StorageDataValue.Stats []) ∧
      StorageData.get seededData StorageDataType.Activities
        = some (StorageDataValue.Activites [])) := by
  refine ⟨?_, ?_, ?_, rfl, ?_, rfl, rfl⟩
  · intro h
    simp [StorageHandler.init, read_bytes_from_file, h]
  · intro h
    simp [StorageHandler.init, read_bytes_from_file, h, bincode_deserialize]
  · intro d h
    simp [StorageHandler.init, read_bytes_from_file, h, bincode_deserialize]
  · simp [StorageHandler.default, write_bytes_into_file, seededData,
      bincode_serialize, StorageData.insert, StorageData.get]

/-- C3, witness for the amended theorem at concrete inputs. -/
theorem c3_amended_witness :
    StorageHandler.init (StorageHandler.new "w3.tukai") fsAbsent
      = some (StorageHandler.new "w3.tukai") ∧
    StorageHandler.init (StorageHandler.new "w3.tukai") fsAllGarbage
      = none :=
  ⟨(c3_init_reads_or_keeps_and_default_seeds_file fsAbsent
      (StorageHandler.new "w3.tukai")).1 rfl,
   (c3_init_reads_or_keeps_and_default_seeds_file fsAllGarbage
      (StorageHandler.new "w3.tukai")).2.1 rfl⟩

/-- A handler over the path "storage.tukai" holding one finalized
record in its Stats sequence. -/
def shOwnPath : StorageHandler :=
  { file_path := "storage.tukai",
    data := [(StorageDataType.Stats, StorageDataValue.Stats [statA]),
             (StorageDataType.Activities, StorageDataValue.Activites [])] }

/-- A file system where the handler's own backing file holds the
previously flushed empty seeded state and no other file exists. -/
def fsOwnPath : FS :=
  fun p => if p = "storage.tukai" then some (bincode_serialize seededData)
           else none

/-- C4: the claim fails on the code.  `flush` serializes the whole map
in one write but writes it to the hardcoded path "test.tukai": the
handler's own backing file ("storage.tukai") still holds its old
contents afterwards, while "test.tukai" receives the serialized map. -/
theorem c4_flush_writes_hardcoded_path :
    ((shOwnPath.flush fsOwnPath).1) "storage.tukai"
      = some (bincode_serialize seededData) ∧
    ((shOwnPath.flush fsOwnPath).1) "test.tukai"
      = some (bincode_serialize shOwnPath.data) ∧
    (shOwnPath.flush fsOwnPath).2 = Except.ok () ∧
    bincode_serialize shOwnPath.data ≠ bincode_serialize seededData := by
  refine ⟨rfl, rfl, rfl, by decide⟩

/-- C6: with the Stats key present, `get_data_stats_reversed` is
exactly the reverse of the stored sequence, the stored sequence itself
is untouched, and after `insert_into_stats x` the reversed view starts
with x. -/
theorem c6_reversed_view_and_insert (sh : StorageHandler) (fs : FS)
    (s : List Stat) (x : Stat)
    (h : StorageData.get sh.data StorageDataType.Stats
      = some (StorageDataValue.Stats s)) :
    sh.get_data_stats_reversed = some s.reverse ∧
    sh.get_data_stats = some s ∧
    ((sh.insert_into_stats fs x).1).get_data_stats
      = some (s ++ [x]) ∧
    ((sh.insert_into_stats fs x).1).get_data_stats_reversed
      = some (x :: s.reverse) := by
  refine ⟨?_, ?_, ?_, ?_⟩
  · simp [StorageHandler.get_data_stats_reversed, h]
  · simp [StorageHandler.get_data_stats, h]
  · simp [StorageHandler.insert_into_stats, h,
      StorageHandler.get_data_stats, StorageData.get_insert]
  · simp [StorageHandler.insert_into_stats, h,
      StorageHandler.get_data_stats_reversed, StorageData.get_insert]

/-- C6, witness at a concrete store holding one record. -/
theorem c6_witness :
    (StorageHandler.mk "w6.tukai"
        [(StorageDataType.Stats, StorageDataValue.Stats [statB])]).get_data_stats_reversed
      = some [statB].reverse ∧
    (StorageHandler.mk "w6.tukai"
        [(StorageDataType.Stats, StorageDataValue.Stats [statB])]).get_data_stats
      = some [statB] ∧
    (((StorageHandler.mk "w6.tukai"
        [(StorageDataType.Stats, StorageDataValue.Stats [statB])]).insert_into_stats
          fsAbsent statA).1).get_data_stats
      = some ([statB] ++ [statA]) ∧
    (((StorageHandler.mk "w6.tukai"
        [(StorageDataType.Stats, StorageDataValue.Stats [statB])]).insert_into_stats
          fsAbsent statA).1).get_data_stats_reversed
      = some (statA :: [statB].reverse) :=
  c6_reversed_view_and_insert
    (StorageHandler.mk "w6.tukai"
      [(StorageDataType.Stats, StorageDataValue.Stats [statB])])
    fsAbsent [statB] statA rfl

/-- C7: the claim fails on the code.  Flushing `shOwnPath` succeeds, but
because `flush` writes to the hardcoded "test.tukai" while `load`
re-reads `self.file_path`, the re-read yields the stale seeded state
(empty Stats) instead of the in-memory sequence `[statA]`. -/
theorem c7_flush_then_load_not_roundtrip :
    (shOwnPath.flush fsOwnPath).2 = Except.ok () ∧
    StorageHandler.load shOwnPath ((shOwnPath.flush fsOwnPath).1)
      = some seededData ∧
    shOwnPath.get_data_stats = some [statA] ∧
    StorageData.get seededData StorageDataType.Stats
      = some (StorageDataValue.Stats []) ∧
    ([] : List Stat) ≠ [statA] := by
  refine ⟨rfl, rfl, rfl, rfl, by decide⟩

/-- C10: on a handler whose map has no Stats entry — for example one
freshly built by `new` — `insert_into_stats` returns false and leaves
both the in-memory map and the file system untouched. -/
theorem c10_insert_without_stats_key (p : String) (fs : FS) (st : Stat)
    (sh : StorageHandler)
    (h : StorageData.get sh.data StorageDataType.Stats = none) :
    sh.insert_into_stats fs st = (sh, fs, false) ∧
    StorageData.get (StorageHandler.new p).data StorageDataType.Stats
      = none := by
  constructor
  · simp [StorageHandler.insert_into_stats, h]
  · rfl

/-- C10, witness at a fresh handler. -/
theorem c10_witness :
    (StorageHandler.new "w10.tukai").insert_into_stats fsAbsent statA
      = (StorageHandler.new "w10.tukai", fsAbsent, false) ∧
    StorageData.get (StorageHandler.new "w10.tukai").data
      StorageDataType.Stats = none :=
  c10_insert_without_stats_key "w10.tukai" fsAbsent statA
    (StorageHandler.new "w10.tukai") rfl

/-- A concrete, inert instantiation of the collaborator operations over
a session-state typing screen: every screen operation is the identity,
nothing consumes keys, and `is_running` is the spec-modelled session
predicate. -/
def opsInert : AppOps SessionState Unit Unit Unit :=
  { typing_handle_events := fun _ s => (false, s)
    stats_handle_events := fun _ s => (false, s)
    typing_reset := fun s => s
    typing_hide := fun s => s
    stats_hide := fun s => s
    switch_typing_duration := fun c => (c, TypingDuration.Minute)
    set_typing_duration := fun _ sh => sh
    toggle_transparent_bg := fun c => (c, false)
    set_transparent_bg := fun _ sh => sh
    switch_layout := fun c => (c, ())
    set_layout := fun _ sh => sh
    switch_language := fun c => (c, 0)
    set_language_index := fun _ sh => sh
    is_running := specIsRunning }

/-- An application state whose typing session is Idle, with five
elapsed seconds on the clock. -/
def appIdle : AppState SessionState Unit Unit :=
  { config := (), storage_handler := StorageHandler.new "w8.tukai",
    fs := fsAbsent, is_exit := false, time_secs := 5,
    active_screen := ActiveScreenEnum.Typing,
    typing_screen := SessionState.Idle, stats_screen := () }

/-- C8: a consumed tick increments `time_secs` by exactly one when and
only when the typing session reports Running; a tick in any other
session state (Idle, Completed, TimedOut) leaves the whole application
state unchanged. -/
theorem c8_tick_counts_iff_running {SS C L : Type}
    (ops : AppOps SessionState SS C L) (app : AppState SessionState SS C)
    (h : ops.is_running = specIsRunning) :
    ((Tukai.step ops app TukaiEvent.tick).time_secs =
      if app.typing_screen = SessionState.Running then app.time_secs + 1
      else app.time_secs) ∧
    ((Tukai.step ops app TukaiEvent.tick).time_secs = app.time_secs + 1 ↔
      app.typing_screen = SessionState.Running) ∧
    (app.typing_screen ≠ SessionState.Running →
      Tukai.step ops app TukaiEvent.tick = app) := by
  cases hs : app.typing_screen <;>
    simp [Tukai.step, h, specIsRunning, hs]

/-- C8, witness: a tick in the Idle state leaves the concrete
application state untouched. -/
theorem c8_tick_witness : Tukai.step opsInert appIdle TukaiEvent.tick = appIdle :=
  (c8_tick_counts_iff_running opsInert appIdle rfl).2.2 (by decide)

/-- C9, amended: CONTROL combinations are global commands whose result
does not depend on either screen handler (no handler is invoked); a
non-CONTROL key with the Typing screen active is offered to the Typing
handler first, and when consumed nothing further happens; with the
Stats screen active no handler is invoked (the result does not depend
on the stats handler) and the key counts as unconsumed; an unconsumed
bare Esc exits, Left navigates to Typing, Right navigates to Stats. -/
theorem c9_dispatch_order {TS SS C L : Type} (ops : AppOps TS SS C L)
    (th : KeyEvent → TS → Bool × TS) (sh : KeyEvent → SS → Bool × SS)
    (app : AppState TS SS C) (k : KeyEvent) :
    (k.ctrl = true →
      Tukai.handle_events
          { ops with typing_handle_events := th, stats_handle_events := sh }
          app k
        = Tukai.handle_events ops app k) ∧
    (k.ctrl = false → app.active_screen = ActiveScreenEnum.Typing →
      (ops.typing_handle_events k app.typing_screen).1 = true →
      Tukai.handle_events ops app k
        = { app with
            typing_screen := (ops.typing_handle_events k app.typing_screen).2 }) ∧
    (k.ctrl = false → app.active_screen = ActiveScreenEnum.Stats →
      Tukai.handle_events { ops with stats_handle_events := sh } app k
          = Tukai.handle_events ops app k ∧
      Tukai.handle_events ops app k
        = (if k.code = KeyCode.esc then Tukai.exit app
           else if k.code = KeyCode.left then
             { app with active_screen := ActiveScreenEnum.Typing }
           else if k.code = KeyCode.right then
             { app with active_screen := ActiveScreenEnum.Stats }
           else app)) ∧
    (k.ctrl = false → app.active_screen = ActiveScreenEnum.Typing →
      (ops.typing_handle_events k app.typing_screen).1 = false →
      Tukai.handle_events ops app k
        = (if k.code = KeyCode.esc then
             Tukai.exit
               { app with
                 typing_screen := (ops.typing_handle_events k app.typing_screen).2 }
           else if k.code = KeyCode.left then
             { app with
               typing_screen := (ops.typing_handle_events k app.typing_screen).2,
               active_screen := ActiveScreenEnum.Typing }
           else if k.code = KeyCode.right then
             { app with
               typing_screen := (ops.typing_handle_events k app.typing_screen).2,
               active_screen := ActiveScreenEnum.Stats }
           else
             { app with
               typing_screen := (ops.typing_handle_events k app.typing_screen).2 })) := by
  refine ⟨?_, ?_, ?_, ?_⟩
  · intro hc
    simp only [Tukai.handle_events, hc, if_true]
    cases k.code <;> rfl
  · intro hc ha hcons
    simp [Tukai.handle_events, hc, Tukai.handle_screen_events, ha, hcons]
  · intro hc ha
    refine ⟨rfl, ?_⟩
    simp [Tukai.handle_events, hc, Tukai.handle_screen_events, ha,
      Tukai.unconsumed_fallback]
  · intro hc ha hcons
    simp [Tukai.handle_events, hc, Tukai.handle_screen_events, ha, hcons,
      Tukai.unconsumed_fallback]

/-- An application state identical to `appIdle` except that the Stats
screen is active and the stats screen carries a counter as its state. -/
def appStatsActive : AppState SessionState Nat Unit :=
  { config := (), storage_handler := StorageHandler.new "storage.tukai",
    fs := fsAbsent, is_exit := false, time_secs := 0,
    active_screen := ActiveScreenEnum.Stats,
    typing_screen := SessionState.Idle, stats_screen := 0 }

/-- Collaborator operations whose stats-screen handler consumes every
key and bumps the stats screen's counter when invoked. -/
def opsStatsConsume : AppOps SessionState Nat Unit Unit :=
  { typing_handle_events := fun _ s => (false, s)
    stats_handle_events := fun _ n => (true, n + 1)
    typing_reset := fun s => s
    typing_hide := fun s => s
    stats_hide := fun n => n
    switch_typing_duration := fun c => (c, TypingDuration.Minute)
    set_typing_duration := fun _ s => s
    toggle_transparent_bg := fun c => (c, false)
    set_transparent_bg := fun _ s => s
    switch_layout := fun c => (c, ())
    set_layout := fun _ s => s
    switch_language := fun c => (c, 0)
    set_language_index := fun _ s => s
    is_running := specIsRunning }

/-- C9, counterexample: with the Stats screen active and a stats
handler that consumes every key (and would bump its counter), a bare
Esc still exits and the stats screen state is untouched — the active
screen was never offered the key, contradicting the claimed dispatch
order ("the active screen is offered the key first, and only if the
screen does not consume it do bare Esc … perform exit"). -/
theorem c9_cex_stats_screen_never_offered :
    (opsStatsConsume.stats_handle_events ⟨KeyCode.esc, false⟩
        appStatsActive.stats_screen).1 = true ∧
    (Tukai.handle_events opsStatsConsume appStatsActive
        ⟨KeyCode.esc, false⟩).is_exit = true ∧
    (Tukai.handle_events opsStatsConsume appStatsActive
        ⟨KeyCode.esc, false⟩).stats_screen = 0 := by
  refine ⟨rfl, rfl, rfl⟩

/-- C9, witness for the amended theorem: the independence from the
stats handler and the Esc fallback, at the concrete Stats-active
state. -/
theorem c9_dispatch_witness :
    Tukai.handle_events
        { opsStatsConsume with stats_handle_events := fun _ n => (true, n + 7) }
        appStatsActive ⟨KeyCode.esc, false⟩
      = Tukai.handle_events opsStatsConsume appStatsActive
          ⟨KeyCode.esc, false⟩ ∧
    Tukai.handle_events opsStatsConsume appStatsActive ⟨KeyCode.esc, false⟩
      = (if (⟨KeyCode.esc, false⟩ : KeyEvent).code = KeyCode.esc then
           Tukai.exit appStatsActive
         else if (⟨KeyCode.esc, false⟩ : KeyEvent).code = KeyCode.left then
           { appStatsActive with active_screen := ActiveScreenEnum.Typing }
         else if (⟨KeyCode.esc, false⟩ : KeyEvent).code = KeyCode.right then
           { appStatsActive with active_screen := ActiveScreenEnum.Stats }
         else appStatsActive) :=
  (c9_dispatch_order opsStatsConsume (fun _ s => (false, s))
    (fun _ n => (true, n + 7)) appStatsActive ⟨KeyCode.esc, false⟩).2.2.1
    rfl rfl
